import Mathlib

/-!
Shallow embedding of the googlebooks-rs client library
(src/queries.rs, src/lib.rs, src/errors.rs, src/models.rs),
together with theorems settling the specification claims about it.
-/

namespace GoogleBooksRs

/-- Metadata projection type (`Projection` in src/queries.rs). -/
inductive Projection where
  | Full
  | Lite
deriving DecidableEq, Repr

/-- Rendering of `Projection`, from its `Display` impl in src/queries.rs. -/
def Projection.toString : Projection → String
  | .Full => "full"
  | .Lite => "lite"

/-- Print type for filtering results (`PrintType` in src/queries.rs). -/
inductive PrintType where
  | All
  | Books
  | Magazines
deriving DecidableEq, Repr

/-- Rendering of `PrintType`, from its `Display` impl in src/queries.rs. -/
def PrintType.toString : PrintType → String
  | .Books => "books"
  | .All => "all"
  | .Magazines => "magazines"

/-- The query-builder value (`struct VolumeQuery` in src/queries.rs).
Rust `i32` fields are embedded as `Int`: the code only ever renders them
with `to_string`, so no wrap-around arithmetic occurs. -/
structure VolumeQuery where
  q : String
  max_results : Option Int
  start_index : Option Int
  lang_restrict : Option String
  projection : Option Projection
  print_type : Option PrintType
deriving DecidableEq, Repr

/-- `VolumeQuery::new` in src/queries.rs: wraps the search string,
all option fields start unset. It performs no validation. -/
def VolumeQuery.new (search : String) : VolumeQuery :=
  { q := search
    max_results := none
    start_index := none
    lang_restrict := none
    projection := none
    print_type := none }

/-- `VolumeQuery::isbn`. -/
def VolumeQuery.isbn (isbn : String) : VolumeQuery :=
  VolumeQuery.new ("isbn:" ++ isbn)

/-- `VolumeQuery::title`. -/
def VolumeQuery.title (title : String) : VolumeQuery :=
  VolumeQuery.new ("intitle:" ++ title)

/-- `VolumeQuery::author`. -/
def VolumeQuery.author (author : String) : VolumeQuery :=
  VolumeQuery.new ("inauthor:" ++ author)

/-- `VolumeQuery::publisher`. -/
def VolumeQuery.publisher (publisher : String) : VolumeQuery :=
  VolumeQuery.new ("inpublisher:" ++ publisher)

/-- `VolumeQuery::subject`. -/
def VolumeQuery.subject (subject : String) : VolumeQuery :=
  VolumeQuery.new ("subject:" ++ subject)

/-- `VolumeQuery::lccn`. -/
def VolumeQuery.lccn (lccn : String) : VolumeQuery :=
  VolumeQuery.new ("lccn:" ++ lccn)

/-- `VolumeQuery::oclc`. -/
def VolumeQuery.oclc (oclc : String) : VolumeQuery :=
  VolumeQuery.new ("oclc:" ++ oclc)

/-- `VolumeQuery::and_isbn`: `self.q.push_str(&format!(" isbn:{}", ..))`. -/
def VolumeQuery.and_isbn (self : VolumeQuery) (isbn : String) : VolumeQuery :=
  { self with q := self.q ++ (" isbn:" ++ isbn) }

/-- `VolumeQuery::and_title`. -/
def VolumeQuery.and_title (self : VolumeQuery) (title : String) : VolumeQuery :=
  { self with q := self.q ++ (" intitle:" ++ title) }

/-- `VolumeQuery::and_author`. -/
def VolumeQuery.and_author (self : VolumeQuery) (author : String) : VolumeQuery :=
  { self with q := self.q ++ (" inauthor:" ++ author) }

/-- `VolumeQuery::and_publisher`. -/
def VolumeQuery.and_publisher (self : VolumeQuery) (publisher : String) : VolumeQuery :=
  { self with q := self.q ++ (" inpublisher:" ++ publisher) }

/-- `VolumeQuery::and_subject`. -/
def VolumeQuery.and_subject (self : VolumeQuery) (subject : String) : VolumeQuery :=
  { self with q := self.q ++ (" subject:" ++ subject) }

/-- `VolumeQuery::and_lccn`. -/
def VolumeQuery.and_lccn (self : VolumeQuery) (lccn : String) : VolumeQuery :=
  { self with q := self.q ++ (" lccn:" ++ lccn) }

/-- `VolumeQuery::and_oclc`. -/
def VolumeQuery.and_oclc (self : VolumeQuery) (oclc : String) : VolumeQuery :=
  { self with q := self.q ++ (" oclc:" ++ oclc) }

/-- `VolumeQuery::max_results` (the setter; renamed here because the field
keeps the source name). -/
def VolumeQuery.withMaxResults (self : VolumeQuery) (max : Int) : VolumeQuery :=
  { self with max_results := some max }

/-- `VolumeQuery::start_index` (the setter). -/
def VolumeQuery.withStartIndex (self : VolumeQuery) (index : Int) : VolumeQuery :=
  { self with start_index := some index }

/-- `VolumeQuery::lang_restrict` (the setter). -/
def VolumeQuery.withLangRestrict (self : VolumeQuery) (lang : String) : VolumeQuery :=
  { self with lang_restrict := some lang }

/-- `VolumeQuery::projection` (the setter). -/
def VolumeQuery.withProjection (self : VolumeQuery) (projection : Projection) : VolumeQuery :=
  { self with projection := some projection }

/-- `VolumeQuery::print_type` (the setter). -/
def VolumeQuery.withPrintType (self : VolumeQuery) (print_type : PrintType) : VolumeQuery :=
  { self with print_type := some print_type }

/-- Upper-case hexadecimal digit character for a value below 16. -/
def hexUpperDigit (d : Nat) : Char :=
  if d < 10 then Char.ofNat (48 + d) else Char.ofNat (55 + d)

/-- UTF-8 byte sequence of a character, as byte values. -/
def utf8Bytes (c : Char) : List Nat :=
  let n := c.toNat
  if n < 0x80 then [n]
  else if n < 0x800 then [0xC0 + n / 0x40, 0x80 + n % 0x40]
  else if n < 0x10000 then
    [0xE0 + n / 0x1000, 0x80 + (n / 0x40) % 0x40, 0x80 + n % 0x40]
  else
    [0xF0 + n / 0x40000, 0x80 + (n / 0x1000) % 0x40, 0x80 + (n / 0x40) % 0x40, 0x80 + n % 0x40]

/-- One byte of `application/x-www-form-urlencoded` serialization, as done by
the url crate behind `reqwest::Url::parse_with_params`: ASCII alphanumerics and
the bytes for asterisk, hyphen, dot and underscore pass through, a space
becomes a plus sign, every other byte is percent-encoded in upper-case hex. -/
def serializeByte (b : Nat) : String :=
  if b = 0x20 then "+"
  else if (0x30 ≤ b ∧ b ≤ 0x39) ∨ (0x41 ≤ b ∧ b ≤ 0x5A) ∨ (0x61 ≤ b ∧ b ≤ 0x7A)
      ∨ b = 0x2A ∨ b = 0x2D ∨ b = 0x2E ∨ b = 0x5F then
    String.singleton (Char.ofNat b)
  else
    "%" ++ String.singleton (hexUpperDigit (b / 16)) ++ String.singleton (hexUpperDigit (b % 16))

/-- Form-urlencoding of a whole string (UTF-8 bytes, each serialized). -/
def formUrlencode (s : String) : String :=
  String.join (((s.toList.flatMap utf8Bytes).map serializeByte))

/-- `VolumeQuery::build_url` in src/queries.rs, embedded faithfully, with the
resulting `reqwest::Url` represented by its rendered string. The pair list is
built exactly as in the source: `q` first, then `maxResults` if set, then the
`startIndex` pair pushed twice (the source duplicates that if-block), then
`langRestrict`, then `projection`, and then — as in the source — the print
type value pushed under the parameter name `projection`. The source function
takes no API key argument and appends no `key` parameter.
`reqwest::Url::parse_with_params` appends the pairs as the query string,
form-urlencoding each key and value. -/
def VolumeQuery.build_url (self : VolumeQuery) (base : String) : String :=
  let base_url := base ++ "/books/v1/volumes"
  let queries : List (String × String) :=
    [("q", self.q)]
    ++ (match self.max_results with
        | some max => [("maxResults", toString max)]
        | none => [])
    ++ (match self.start_index with
        | some start_index => [("startIndex", toString start_index)]
        | none => [])
    ++ (match self.start_index with
        | some start_index => [("startIndex", toString start_index)]
        | none => [])
    ++ (match self.lang_restrict with
        | some lang => [("langRestrict", lang)]
        | none => [])
    ++ (match self.projection with
        | some projection => [("projection", projection.toString)]
        | none => [])
    ++ (match self.print_type with
        | some print_type => [("projection", print_type.toString)]
        | none => [])
  base_url ++ "?" ++
    String.intercalate "&" (queries.map fun kv => formUrlencode kv.1 ++ "=" ++ formUrlencode kv.2)

/-- One item of the error envelope (`GoogleApiErrorItem` in src/models.rs). -/
structure GoogleApiErrorItem where
  message : String
  domain : String
  reason : String
deriving DecidableEq, Repr

/-- Detail of the error envelope (`GoogleApiErrorDetail` in src/models.rs);
`code` is a `u16` in the source, embedded as `Nat` (only compared, never
computed with). -/
structure GoogleApiErrorDetail where
  code : Nat
  message : String
  status : Option String
  errors : Option (List GoogleApiErrorItem)
deriving DecidableEq, Repr

/-- The error envelope (`GoogleApiError` in src/models.rs). -/
structure GoogleApiError where
  error : GoogleApiErrorDetail
deriving DecidableEq, Repr

/-- Book standard identifiers (`IndustryIdentifiers` in src/models.rs). -/
structure IndustryIdentifiers where
  identifier : String
  identifier_type : String
deriving DecidableEq, Repr

/-- Links to cover images (`ImageLink` in src/models.rs). -/
structure ImageLink where
  small_thumbnail : Option String
  thumbnail : Option String
deriving DecidableEq, Repr

/-- Detailed information about a book (`VolumeInfo` in src/models.rs). -/
structure VolumeInfo where
  title : String
  subtitle : Option String
  authors : Option (List String)
  publisher : Option String
  published_date : Option String
  description : Option String
  industry_identifiers : Option (List IndustryIdentifiers)
  page_count : Option Nat
  print_type : String
  categories : Option (List String)
  image_links : Option ImageLink
deriving DecidableEq, Repr

/-- A book with its basic metadata (`Book` in src/models.rs). -/
structure Book where
  id : String
  etag : String
  kind : Option String
  self_link : Option String
  volume_info : VolumeInfo
deriving DecidableEq, Repr

/-- Main response from the API (`VolumeResponse` in src/models.rs). -/
structure VolumeResponse where
  kind : String
  total_items : Int
  items : Option (List Book)
deriving DecidableEq, Repr

/-- The error taxonomy (`AppError` in src/errors.rs). The `source` payloads of
the `Http` and `DeserializeJson` variants are `reqwest::Error` values in the
source; they enter the embedding as their diagnostic strings. -/
inductive AppError where
  | Http (source : String)
  | DeserializeJson (source : String)
  | RateLimitExceeded (message : String)
  | GoogleApi (code : Nat) (message : String) (reason : Option String)
deriving DecidableEq, Repr

/-- `reqwest::StatusCode::is_success`: status in 200..=299. -/
def statusIsSuccess (status : Nat) : Bool :=
  decide (200 ≤ status ∧ status < 300)

/-- The response-resolution logic of `GoogleBooks::search` in src/lib.rs,
from the point where the HTTP response has arrived. JSON decoding is
delegated to serde by the source, so the two possible decodings of the body
enter as `Except` arguments: `decodeError` is the body decoded as the error
envelope, `decodeVolume` the body decoded as the success payload; an `error`
value carries the raw diagnostic. On a non-success status the source decodes
the envelope, returns `RateLimitExceeded` when its `code` field equals 429,
and otherwise `GoogleApi` with the envelope code, message, and the reason of
the first item of `errors` obtained by `errors.and_then(|e| e.first().map(|i| i.reason.clone()))`. -/
def handleResponse (status : Nat)
    (decodeError : Except String GoogleApiError)
    (decodeVolume : Except String VolumeResponse) :
    Except AppError VolumeResponse :=
  if statusIsSuccess status then
    match decodeVolume with
    | .ok result => .ok result
    | .error raw => .error (.DeserializeJson raw)
  else
    match decodeError with
    | .error raw => .error (.DeserializeJson raw)
    | .ok error_body =>
      if error_body.error.code = 429 then
        .error (.RateLimitExceeded error_body.error.message)
      else
        .error (.GoogleApi error_body.error.code error_body.error.message
          (error_body.error.errors.bind fun e => e.head?.map fun i => i.reason))

/-- Claim C1: the claim says build_url appends q, then each set option exactly
once under its own parameter name (maxResults, startIndex, langRestrict,
projection, printType), and finally key when an API key is present. The code
violates this: with every option set, the produced URL carries the startIndex
pair twice (the source duplicates that if-block), renders the print type under
the parameter name projection, and carries no key parameter (the source
build_url accepts no API key, although its caller in src/lib.rs passes one).
This theorem evaluates build_url at such a query and exhibits the defective
URL. -/
theorem C1_buildUrl_defects :
    ((((((VolumeQuery.new "a").withMaxResults 5).withStartIndex 2).withLangRestrict
        "fr").withProjection Projection.Full).withPrintType PrintType.Books).build_url
        "https://www.googleapis.com"
      = "https://www.googleapis.com/books/v1/volumes?q=a&maxResults=5&startIndex=2&startIndex=2&langRestrict=fr&projection=full&projection=books" := by
  decide

/-- Claim C2: for every non-2xx HTTP response whose body decodes to the error
envelope, resolution returns RateLimitExceeded with the envelope message when
the envelope code equals 429, and otherwise GoogleApi carrying the envelope
code and message and, as reason, the reason of the first item of the errors
list when that list is present and non-empty, else none. -/
theorem C2_errorEnvelope_resolution (status : Nat) (h : statusIsSuccess status = false)
    (env : GoogleApiError) (dv : Except String VolumeResponse) :
    handleResponse status (.ok env) dv =
      (if env.error.code = 429 then
        .error (.RateLimitExceeded env.error.message)
      else
        .error (.GoogleApi env.error.code env.error.message
          (match env.error.errors with
           | some (item :: _) => some item.reason
           | some [] => none
           | none => none))) := by
  cases henv : env.error.errors with
  | none =>
    by_cases hc : env.error.code = 429 <;>
      simp [handleResponse, h, hc, henv]
  | some l =>
    cases l with
    | nil =>
      by_cases hc : env.error.code = 429 <;>
        simp [handleResponse, h, hc, henv]
    | cons item rest =>
      by_cases hc : env.error.code = 429 <;>
        simp [handleResponse, h, hc, henv]

/-- Witness for C2 at HTTP status 404 and an envelope with code 403 and one
error item. -/
theorem C2_errorEnvelope_resolution_witness :
    statusIsSuccess 404 = false ∧
    handleResponse 404 (Except.ok ⟨⟨403, "m", none, some [⟨"em", "dom", "rsn"⟩]⟩⟩)
        (Except.error "x")
      = Except.error (AppError.GoogleApi 403 "m" (some "rsn")) := by
  refine ⟨by decide, ?_⟩
  have h := C2_errorEnvelope_resolution 404 (by decide)
    ⟨⟨403, "m", none, some [⟨"em", "dom", "rsn"⟩]⟩⟩ (Except.error "x")
  simpa using h

/-- Claim C3: the claim (and the spec) require printType and projection to be
encoded under distinct parameter names. The code conflates them: with both
options set, the URL carries the name projection twice, once with each value,
and the name printType never appears — the spec itself flags this as a
functional bug of the source. This theorem evaluates build_url at such a query
and exhibits the conflation. -/
theorem C3_printType_conflated_with_projection :
    (((VolumeQuery.new "a").withProjection Projection.Lite).withPrintType
        PrintType.Books).build_url "https://www.googleapis.com"
      = "https://www.googleapis.com/books/v1/volumes?q=a&projection=lite&projection=books" := by
  decide

/-- Counterexample to claim C4: the claim says newQuery fails with
InvalidArgument on an empty seed, but the code performs no validation at all —
VolumeQuery::new is total, its error taxonomy has no InvalidArgument variant,
and on the empty seed it succeeds and returns the query with empty q. -/
theorem C4_empty_seed_succeeds :
    VolumeQuery.new "" =
      { q := "", max_results := none, start_index := none, lang_restrict := none,
        projection := none, print_type := none } := rfl

/-- Amended claim C4: newQuery never fails; for every seed string, including
the empty one, it constructs the query whose term is the seed and whose option
fields are all unset. -/
theorem C4_new_never_fails (seed : String) :
    VolumeQuery.new seed =
      { q := seed, max_results := none, start_index := none, lang_restrict := none,
        projection := none, print_type := none } := rfl

/-- Claim C5: for every 2xx HTTP status, if the body fails to decode as the
success payload, resolution returns DeserializeJson carrying the raw
diagnostic; the resolution function is total, so no exception escapes. -/
theorem C5_success_status_decode_failure (status : Nat) (h : statusIsSuccess status = true)
    (raw : String) (de : Except String GoogleApiError) :
    handleResponse status de (.error raw) = .error (.DeserializeJson raw) := by
  simp [handleResponse, h]

/-- Witness for C5 at HTTP status 200 with an undecodable body. -/
theorem C5_success_status_decode_failure_witness :
    statusIsSuccess 200 = true ∧
    handleResponse 200 (Except.error "y") (Except.error "bad json")
      = Except.error (AppError.DeserializeJson "bad json") :=
  ⟨by decide, C5_success_status_decode_failure 200 (by decide) "bad json" (Except.error "y")⟩

/-- Claim C6: for every non-empty seed s, new s has term s, and each named
constructor produces the term prefix-colon-value with its fixed keyword:
isbn, intitle for title, inauthor for author, inpublisher for publisher,
subject, lccn, oclc. -/
theorem C6_constructor_terms (s v : String) (hs : s ≠ "") :
    (VolumeQuery.new s).q = s
    ∧ (VolumeQuery.isbn v).q = "isbn:" ++ v
    ∧ (VolumeQuery.title v).q = "intitle:" ++ v
    ∧ (VolumeQuery.author v).q = "inauthor:" ++ v
    ∧ (VolumeQuery.publisher v).q = "inpublisher:" ++ v
    ∧ (VolumeQuery.subject v).q = "subject:" ++ v
    ∧ (VolumeQuery.lccn v).q = "lccn:" ++ v
    ∧ (VolumeQuery.oclc v).q = "oclc:" ++ v :=
  ⟨rfl, rfl, rfl, rfl, rfl, rfl, rfl, rfl⟩

/-- Witness for C6 at the non-empty seed "a" and value "b". -/
theorem C6_constructor_terms_witness :
    ("a" : String) ≠ "" ∧ (VolumeQuery.isbn "b").q = "isbn:" ++ "b" :=
  ⟨by decide, (C6_constructor_terms "a" "b" (by decide)).2.1⟩

/-- Claim C7: every conjunctive variant appends exactly a space, the keyword, a
colon and the value to the existing term, leaving everything before it
unchanged, so chained calls keep left-to-right order; in particular
title "A" then and_author "B" yields the term "intitle:A inauthor:B". -/
theorem C7_conjunctive_append (q : VolumeQuery) (v : String) :
    (q.and_isbn v).q = q.q ++ (" isbn:" ++ v)
    ∧ (q.and_title v).q = q.q ++ (" intitle:" ++ v)
    ∧ (q.and_author v).q = q.q ++ (" inauthor:" ++ v)
    ∧ (q.and_publisher v).q = q.q ++ (" inpublisher:" ++ v)
    ∧ (q.and_subject v).q = q.q ++ (" subject:" ++ v)
    ∧ (q.and_lccn v).q = q.q ++ (" lccn:" ++ v)
    ∧ (q.and_oclc v).q = q.q ++ (" oclc:" ++ v)
    ∧ ((VolumeQuery.title "A").and_author "B").q = "intitle:A inauthor:B" :=
  ⟨rfl, rfl, rfl, rfl, rfl, rfl, rfl, by decide⟩

/-- Claim C8: build_url is deterministic and side-effect free. The embedding
is a pure function, so two calls on equal inputs yield the identical string
and the query value itself is left unchanged. -/
theorem C8_buildUrl_deterministic (q q' : VolumeQuery) (base : String) (hq : q = q') :
    q.build_url base = q'.build_url base ∧ q = q' := by
  subst hq; exact ⟨rfl, rfl⟩

/-- Witness for C8 at the query with term "a". -/
theorem C8_buildUrl_deterministic_witness :
    (VolumeQuery.new "a").build_url "https://www.googleapis.com"
      = (VolumeQuery.new "a").build_url "https://www.googleapis.com"
    ∧ VolumeQuery.new "a" = VolumeQuery.new "a" :=
  C8_buildUrl_deterministic (VolumeQuery.new "a") (VolumeQuery.new "a")
    "https://www.googleapis.com" rfl

/-- Claim C9: each with-option setter modifies only its own field, setting it
to some of the supplied value (overwriting any previous value, since the
equation holds for every input query) and leaving the term q and every other
option field equal to those of the input. -/
theorem C9_setters_frame (q : VolumeQuery) (m i : Int) (lang : String)
    (p : Projection) (pt : PrintType) :
    ((q.withMaxResults m).max_results = some m
      ∧ (q.withMaxResults m).q = q.q
      ∧ (q.withMaxResults m).start_index = q.start_index
      ∧ (q.withMaxResults m).lang_restrict = q.lang_restrict
      ∧ (q.withMaxResults m).projection = q.projection
      ∧ (q.withMaxResults m).print_type = q.print_type)
    ∧ ((q.withStartIndex i).start_index = some i
      ∧ (q.withStartIndex i).q = q.q
      ∧ (q.withStartIndex i).max_results = q.max_results
      ∧ (q.withStartIndex i).lang_restrict = q.lang_restrict
      ∧ (q.withStartIndex i).projection = q.projection
      ∧ (q.withStartIndex i).print_type = q.print_type)
    ∧ ((q.withLangRestrict lang).lang_restrict = some lang
      ∧ (q.withLangRestrict lang).q = q.q
      ∧ (q.withLangRestrict lang).max_results = q.max_results
      ∧ (q.withLangRestrict lang).start_index = q.start_index
      ∧ (q.withLangRestrict lang).projection = q.projection
      ∧ (q.withLangRestrict lang).print_type = q.print_type)
    ∧ ((q.withProjection p).projection = some p
      ∧ (q.withProjection p).q = q.q
      ∧ (q.withProjection p).max_results = q.max_results
      ∧ (q.withProjection p).start_index = q.start_index
      ∧ (q.withProjection p).lang_restrict = q.lang_restrict
      ∧ (q.withProjection p).print_type = q.print_type)
    ∧ ((q.withPrintType pt).print_type = some pt
      ∧ (q.withPrintType pt).q = q.q
      ∧ (q.withPrintType pt).max_results = q.max_results
      ∧ (q.withPrintType pt).start_index = q.start_index
      ∧ (q.withPrintType pt).lang_restrict = q.lang_restrict
      ∧ (q.withPrintType pt).projection = q.projection) :=
  ⟨⟨rfl, rfl, rfl, rfl, rfl, rfl⟩, ⟨rfl, rfl, rfl, rfl, rfl, rfl⟩,
    ⟨rfl, rfl, rfl, rfl, rfl, rfl⟩, ⟨rfl, rfl, rfl, rfl, rfl, rfl⟩,
    ⟨rfl, rfl, rfl, rfl, rfl, rfl⟩⟩

/-- Claim C10: rate-limit classification depends only on the decoded
envelope's code field, never on the HTTP status: for any two non-2xx statuses
the resolution of the same envelope is identical; an envelope code different
from 429 yields GoogleApi (even when the HTTP status itself is 429), and an
envelope code of 429 yields RateLimitExceeded whatever the non-2xx status. -/
theorem C10_classification_by_envelope_code (s1 s2 : Nat)
    (h1 : statusIsSuccess s1 = false) (h2 : statusIsSuccess s2 = false)
    (env : GoogleApiError) (d1 d2 : Except String VolumeResponse) :
    handleResponse s1 (.ok env) d1 = handleResponse s2 (.ok env) d2
    ∧ (env.error.code ≠ 429 →
        handleResponse s1 (.ok env) d1
          = .error (.GoogleApi env.error.code env.error.message
              (env.error.errors.bind fun e => e.head?.map fun i => i.reason)))
    ∧ (env.error.code = 429 →
        handleResponse s1 (.ok env) d1 = .error (.RateLimitExceeded env.error.message)) := by
  refine ⟨?_, ?_, ?_⟩
  · simp [handleResponse, h1, h2]
  · intro hc; simp [handleResponse, h1, hc]
  · intro hc; simp [handleResponse, h1, hc]

/-- Witness for C10 at HTTP status 429 carrying an envelope with code 403:
the result is GoogleApi, not RateLimitExceeded. -/
theorem C10_classification_by_envelope_code_witness :
    statusIsSuccess 429 = false ∧
    handleResponse 429 (Except.ok ⟨⟨403, "m", none, none⟩⟩) (Except.error "x")
      = Except.error (AppError.GoogleApi 403 "m" none) := by
  refine ⟨by decide, ?_⟩
  have h := (C10_classification_by_envelope_code 429 404 (by decide) (by decide)
    ⟨⟨403, "m", none, none⟩⟩ (Except.error "x") (Except.error "x")).2.1 (by decide)
  simpa using h

end GoogleBooksRs
